import Mathlib

/-!
Shallow embedding of the Rubik's-cube MCP server core
(`src/cubeLogic.ts`, `src/app.ts`, `src/types.ts`).

Stickers are the single-character color strings of `COLORS`
(`"W" "Y" "R" "O" "B" "G"`); a face is the 3x3 sticker grid `string[][]`,
embedded as a structure with one field `mIJ` per cell `face[i][j]`;
the mutable engine state becomes explicit state passing, and the
TypeScript `throw` paths become `Option` (`none` = exception raised
before any state was written).
-/

namespace Cube

/-- One 3x3 sticker grid: field `mIJ` is cell `face[i][j]` of the
TypeScript `string[][]` face. -/
structure Face where
  m00 : String
  m01 : String
  m02 : String
  m10 : String
  m11 : String
  m12 : String
  m20 : String
  m21 : String
  m22 : String
  deriving DecidableEq, Repr

/-- The six named faces of `CubeState.faces`. -/
structure Faces where
  front : Face
  back : Face
  left : Face
  right : Face
  top : Face
  bottom : Face
  deriving DecidableEq, Repr

/-- `CubeState`: six faces, the `solved` flag and the append-only
`moveHistory`. -/
structure CubeState where
  faces : Faces
  solved : Bool
  moveHistory : List String
  deriving DecidableEq, Repr

/-- `rotateFace`: clockwise 90-degree rotation of a face, the loop
`rotated[j][n-1-i] = face[i][j]` instantiated at `n = 3`
(so cell `[r][c]` of the result is cell `[2-c][r]` of the input). -/
def rotateFace (x : Face) : Face where
  m00 := x.m20
  m01 := x.m10
  m02 := x.m00
  m10 := x.m21
  m11 := x.m11
  m12 := x.m01
  m20 := x.m22
  m21 := x.m12
  m22 := x.m02

/-- `moveU`: rotate `top` clockwise; `front[0] := right[0]`,
`right[0] := back[0]`, `back[0] := left[0]`, `left[0] := temp`
(`temp` the old `front[0]`). -/
def moveU (s : Faces) : Faces where
  top := rotateFace s.top
  front := { s.front with m00 := s.right.m00, m01 := s.right.m01, m02 := s.right.m02 }
  right := { s.right with m00 := s.back.m00, m01 := s.back.m01, m02 := s.back.m02 }
  back := { s.back with m00 := s.left.m00, m01 := s.left.m01, m02 := s.left.m02 }
  left := { s.left with m00 := s.front.m00, m01 := s.front.m01, m02 := s.front.m02 }
  bottom := s.bottom

/-- `moveD`: rotate `bottom` clockwise; `front[2] := left[2]`,
`left[2] := back[2]`, `back[2] := right[2]`, `right[2] := temp`
(`temp` the old `front[2]`). -/
def moveD (s : Faces) : Faces where
  bottom := rotateFace s.bottom
  front := { s.front with m20 := s.left.m20, m21 := s.left.m21, m22 := s.left.m22 }
  left := { s.left with m20 := s.back.m20, m21 := s.back.m21, m22 := s.back.m22 }
  back := { s.back with m20 := s.right.m20, m21 := s.right.m21, m22 := s.right.m22 }
  right := { s.right with m20 := s.front.m20, m21 := s.front.m21, m22 := s.front.m22 }
  top := s.top

/-- `moveR`: rotate `right` clockwise; the column-2 strips of front and
bottom, column-0 strip of back and column-2 strip of top cycle, back's
strip reversed at the shared edge.  Every right-hand side below reads the
face before the assignments of `moveR` overwrite it, exactly as the
sequential TypeScript assignments do (each source region is read before
it is written). -/
def moveR (s : Faces) : Faces where
  right := rotateFace s.right
  front := { s.front with m02 := s.bottom.m02, m12 := s.bottom.m12, m22 := s.bottom.m22 }
  bottom := { s.bottom with m02 := s.back.m20, m12 := s.back.m10, m22 := s.back.m00 }
  back := { s.back with m00 := s.top.m22, m10 := s.top.m12, m20 := s.top.m02 }
  top := { s.top with m02 := s.front.m02, m12 := s.front.m12, m22 := s.front.m22 }
  left := s.left

/-- `moveL`: rotate `left` clockwise; column-0 strips of front, top,
bottom and column-2 strip of back cycle, with the reversals of the
source. -/
def moveL (s : Faces) : Faces where
  left := rotateFace s.left
  front := { s.front with m00 := s.top.m00, m10 := s.top.m10, m20 := s.top.m20 }
  top := { s.top with m00 := s.back.m22, m10 := s.back.m12, m20 := s.back.m02 }
  back := { s.back with m02 := s.bottom.m20, m12 := s.bottom.m10, m22 := s.bottom.m00 }
  bottom := { s.bottom with m00 := s.front.m00, m10 := s.front.m10, m20 := s.front.m20 }
  right := s.right

/-- `moveF`: rotate `front` clockwise; `top[2] := [left[2][2], left[1][2],
left[0][2]]`, left's column 2 from `bottom[0]`, `bottom[0] :=
[right[2][0], right[1][0], right[0][0]]`, right's column 0 from `temp`
(the old `top[2]`). -/
def moveF (s : Faces) : Faces where
  front := rotateFace s.front
  top := { s.top with m20 := s.left.m22, m21 := s.left.m12, m22 := s.left.m02 }
  left := { s.left with m02 := s.bottom.m00, m12 := s.bottom.m01, m22 := s.bottom.m02 }
  bottom := { s.bottom with m00 := s.right.m20, m01 := s.right.m10, m02 := s.right.m00 }
  right := { s.right with m00 := s.top.m20, m10 := s.top.m21, m20 := s.top.m22 }
  back := s.back

/-- `moveB`: rotate `back` clockwise; `top[0] := [right[0][2], right[1][2],
right[2][2]]`, right's column 2 from `bottom[2]` reversed, `bottom[2] :=
[left[2][0], left[1][0], left[0][0]]`, left's column 0 from `temp`
(the old `top[0]`) reversed. -/
def moveB (s : Faces) : Faces where
  back := rotateFace s.back
  top := { s.top with m00 := s.right.m02, m01 := s.right.m12, m02 := s.right.m22 }
  right := { s.right with m02 := s.bottom.m22, m12 := s.bottom.m21, m22 := s.bottom.m20 }
  bottom := { s.bottom with m20 := s.left.m20, m21 := s.left.m10, m22 := s.left.m00 }
  left := { s.left with m00 := s.top.m02, m10 := s.top.m01, m20 := s.top.m00 }
  front := s.front

/-- `isSolved`: for every face, every cell equals that face's
`face[0][0]`. -/
def isSolvedFace (x : Face) : Bool :=
  x.m00 == x.m00 && x.m01 == x.m00 && x.m02 == x.m00 &&
  x.m10 == x.m00 && x.m11 == x.m00 && x.m12 == x.m00 &&
  x.m20 == x.m00 && x.m21 == x.m00 && x.m22 == x.m00

/-- `isSolved` over `Object.values(this.state.faces)`. -/
def isSolved (s : Faces) : Bool :=
  isSolvedFace s.front && isSolvedFace s.back && isSolvedFace s.left &&
  isSolvedFace s.right && isSolvedFace s.top && isSolvedFace s.bottom

/-- `checkSolved` just delegates to `isSolved`. -/
def checkSolved (s : Faces) : Bool := isSolved s

/-- A uniformly colored 3x3 face literal of `createSolvedCube`. -/
def uniformFace (c : String) : Face := ⟨c, c, c, c, c, c, c, c, c⟩

/-- `createSolvedCube`: front green, back blue, left orange, right red,
top white, bottom yellow; `solved = true`, empty history. -/
def createSolvedCube : CubeState where
  faces :=
    { front := uniformFace "G"
      back := uniformFace "B"
      left := uniformFace "O"
      right := uniformFace "R"
      top := uniformFace "W"
      bottom := uniformFace "Y" }
  solved := true
  moveHistory := []

/-- `getState` returns a deep copy; under value semantics the snapshot is
the state itself. -/
def getState (s : CubeState) : CubeState := s

/-- `setState` replaces the internal state wholesale with (a deep copy of)
the snapshot; no field is recomputed or validated. -/
def setState (_s : CubeState) (newState : CubeState) : CubeState := newState

/-- `getMoveFunction`: the 18-case switch; the default branch throws
`Unknown move`, embedded as `none`. -/
def getMoveFunction (move : String) : Option (Faces → Faces) :=
  if move = "U" then some moveU
  else if move = "U'" then some (fun s => moveU (moveU (moveU s)))
  else if move = "U2" then some (fun s => moveU (moveU s))
  else if move = "D" then some moveD
  else if move = "D'" then some (fun s => moveD (moveD (moveD s)))
  else if move = "D2" then some (fun s => moveD (moveD s))
  else if move = "R" then some moveR
  else if move = "R'" then some (fun s => moveR (moveR (moveR s)))
  else if move = "R2" then some (fun s => moveR (moveR s))
  else if move = "L" then some moveL
  else if move = "L'" then some (fun s => moveL (moveL (moveL s)))
  else if move = "L2" then some (fun s => moveL (moveL s))
  else if move = "F" then some moveF
  else if move = "F'" then some (fun s => moveF (moveF (moveF s)))
  else if move = "F2" then some (fun s => moveF (moveF s))
  else if move = "B" then some moveB
  else if move = "B'" then some (fun s => moveB (moveB (moveB s)))
  else if move = "B2" then some (fun s => moveB (moveB s))
  else none

/-- The 18-symbol move alphabet of `CubeMove`. -/
def validMoves : List String :=
  ["U", "D", "L", "R", "F", "B",
   "U'", "D'", "L'", "R'", "F'", "B'",
   "U2", "D2", "L2", "R2", "F2", "B2"]

/-- `executeMove`: `getMoveFunction` throws on an unknown token before any
mutation; otherwise the move function runs, the token is appended to
`moveHistory` and `solved` is recomputed via `checkSolved`. -/
def executeMove (s : CubeState) (move : String) : Option CubeState :=
  (getMoveFunction move).map fun moveFunc =>
    { faces := moveFunc s.faces
      solved := checkSolved (moveFunc s.faces)
      moveHistory := s.moveHistory ++ [move] }

/-! Session registry (`src/app.ts`, `src/types.ts`): the `games` map from
session id to `{ cube, session }`, and the `manipulateCube` / `finish`
tool handlers.  `Map` lookups become association-list lookups, in-place
session mutation becomes entry replacement, `Date.now()` a `now`
parameter, and `throw` becomes `none`. -/

/-- `GameSession.status`. -/
inductive SessionStatus where
  | active
  | completed
  deriving DecidableEq, Repr

/-- `GameSession` metadata. -/
structure GameSession where
  id : String
  cubeState : CubeState
  createdAt : Nat
  lastActivity : Nat
  status : SessionStatus
  deriving DecidableEq, Repr

/-- One entry of the `games` map: the engine and its session. -/
structure Game where
  cube : CubeState
  session : GameSession
  deriving DecidableEq, Repr

/-- `CubeResponse` (`nextAction` is `"finish"`, `"manipulateCube"` or
`null`). -/
structure CubeResponse where
  gameId : String
  cube : CubeState
  nextAction : Option String
  deriving DecidableEq, Repr

/-- The registry's `games` map, as an association list. -/
def Registry : Type := List (String × Game)

/-- `games.get(gameId)`. -/
def findGame (games : Registry) (gameId : String) : Option Game :=
  List.lookup gameId games

/-- Replacing the entry at `gameId` (the in-place mutation of the shared
`{ cube, session }` object). -/
def storeGame (games : Registry) (gameId : String) (g : Game) : Registry :=
  List.map (fun p => if p.1 = gameId then (p.1, g) else p) games

/-- The `manipulateCube` tool handler: missing session throws
(`none`); a `completed` session returns the current state untouched with
`nextAction = "finish"`; otherwise the move runs, `session.cubeState` and
`lastActivity` are updated and status flips to `completed` when the new
state is solved. -/
def manipulateCube (games : Registry) (gameId move : String) (now : Nat) :
    Option (Registry × CubeResponse) :=
  match findGame games gameId with
  | none => none
  | some g =>
    if g.session.status = SessionStatus.completed then
      some (games,
        { gameId := gameId, cube := getState g.cube, nextAction := some "finish" })
    else
      match executeMove g.cube move with
      | none => none
      | some newState =>
        let session' : GameSession :=
          { g.session with
            cubeState := newState
            lastActivity := now
            status := if newState.solved then SessionStatus.completed
                      else g.session.status }
        some (storeGame games gameId { cube := newState, session := session' },
          { gameId := gameId, cube := newState
            nextAction := if newState.solved then some "finish"
                          else some "manipulateCube" })

/-- The `finish` tool handler: missing session throws (`none`); otherwise
status is forced to `completed`, `lastActivity` refreshed, the cube and
its state untouched, and the final state returned with
`nextAction = null`. -/
def finish (games : Registry) (gameId : String) (now : Nat) :
    Option (Registry × CubeResponse) :=
  match findGame games gameId with
  | none => none
  | some g =>
    let session' : GameSession :=
      { g.session with status := SessionStatus.completed, lastActivity := now }
    some (storeGame games gameId { cube := g.cube, session := session' },
      { gameId := gameId, cube := getState g.cube, nextAction := none })

/-! Derived notions used by the verification: sticker multisets, the
reachable-state predicate, row accessors, and concrete probe states. -/

/-- The 9 stickers of a face, in row-major order. -/
def faceStickers (x : Face) : List String :=
  [x.m00, x.m01, x.m02, x.m10, x.m11, x.m12, x.m20, x.m21, x.m22]

/-- All 54 stickers of the cube. -/
def stickers (s : Faces) : List String :=
  faceStickers s.front ++ faceStickers s.back ++ faceStickers s.left ++
  faceStickers s.right ++ faceStickers s.top ++ faceStickers s.bottom

/-- How many of the 54 stickers carry color `c`. -/
def countColor (c : String) (s : Faces) : Nat := (stickers s).count c

/-- States reachable from the engine constructor's solved cube by
successful `executeMove` calls. -/
inductive Reachable : CubeState → Prop
  | base : Reachable createSolvedCube
  | step {s s' : CubeState} {m : String} :
      Reachable s → executeMove s m = some s' → Reachable s'

/-- Row 0 of a face (`face[0]`). -/
def topRow (x : Face) : List String := [x.m00, x.m01, x.m02]

/-- Row 1 of a face (`face[1]`). -/
def midRow (x : Face) : List String := [x.m10, x.m11, x.m12]

/-- Row 2 of a face (`face[2]`). -/
def bottomRow (x : Face) : List String := [x.m20, x.m21, x.m22]

/-- A face whose 9 stickers carry distinct numeric labels `9k..9k+8`. -/
def numberedFace (k : Nat) : Face :=
  ⟨toString (9 * k), toString (9 * k + 1), toString (9 * k + 2),
   toString (9 * k + 3), toString (9 * k + 4), toString (9 * k + 5),
   toString (9 * k + 6), toString (9 * k + 7), toString (9 * k + 8)⟩

/-- A probe state whose 54 stickers are pairwise distinct, so that every
sticker movement is observable. -/
def probeFaces : Faces :=
  { front := numberedFace 0, back := numberedFace 1, left := numberedFace 2,
    right := numberedFace 3, top := numberedFace 4, bottom := numberedFace 5 }

/-- A snapshot whose `solved` flag contradicts its faces: the faces are
the solved cube's after one `U` turn (not uniform), the flag says
`true`. -/
def staleSnapshot : CubeState :=
  { faces := moveU createSolvedCube.faces, solved := true, moveHistory := [] }

/-- The state `executeMove` produces from the solved cube on `"U"`. -/
def afterU : CubeState :=
  { faces := moveU createSolvedCube.faces
    solved := checkSolved (moveU createSolvedCube.faces)
    moveHistory := ["U"] }

/-- An all-green cube: per-face uniform, no variation between faces. -/
def allGreen : Faces :=
  { front := uniformFace "G", back := uniformFace "G", left := uniformFace "G",
    right := uniformFace "G", top := uniformFace "G", bottom := uniformFace "G" }

/-- A session frozen in the `completed` status over an unsolved cube. -/
def demoCompletedGame : Game :=
  { cube := { faces := probeFaces, solved := false, moveHistory := ["U"] }
    session :=
      { id := "g1", cubeState := { faces := probeFaces, solved := false, moveHistory := ["U"] }
        createdAt := 0, lastActivity := 1, status := SessionStatus.completed } }

/-- An active, unsolved session. -/
def demoActiveGame : Game :=
  { cube := { faces := probeFaces, solved := false, moveHistory := [] }
    session :=
      { id := "g2", cubeState := { faces := probeFaces, solved := false, moveHistory := [] }
        createdAt := 0, lastActivity := 1, status := SessionStatus.active } }

/-- A registry holding the two demo sessions. -/
def demoRegistry : Registry := [("g1", demoCompletedGame), ("g2", demoActiveGame)]

/-- The spec-worded per-face solvedness: all 9 stickers equal the face's
own first sticker. -/
def faceUniform (x : Face) : Prop :=
  x.m01 = x.m00 ∧ x.m02 = x.m00 ∧ x.m10 = x.m00 ∧ x.m11 = x.m00 ∧
  x.m12 = x.m00 ∧ x.m20 = x.m00 ∧ x.m21 = x.m00 ∧ x.m22 = x.m00

/-! List-of-lists grid model for the shape-safety claim: faces as the
TypeScript `string[][]` values, moves re-transcribed with list reads
(`getD`, out-of-bounds yielding a default) and list writes (`set`,
out-of-bounds a no-op), each TypeScript assignment one step.  The
structure-based model above fixes the 3x3 shape by type; this model does
not, so shape preservation is a statement, not a typing artifact. -/

/-- A face as the TypeScript `string[][]` value. -/
abbrev Grid : Type := List (List String)

/-- Read `g[i][j]`. -/
def getE (g : Grid) (i j : Nat) : String := (g.getD i []).getD j ""

/-- Write `g[i][j] = v`. -/
def setE (g : Grid) (i j : Nat) (v : String) : Grid :=
  g.set i ((g.getD i []).set j v)

/-- Read row `g[i]`. -/
def getRow (g : Grid) (i : Nat) : List String := g.getD i []

/-- Write row `g[i] = row`. -/
def setRow (g : Grid) (i : Nat) (row : List String) : Grid := g.set i row

/-- `rotateFace` on grids, exactly the source loop:
`rotated[j][n-1-i] = face[i][j]`, i.e. cell `[r][c]` of the result is
cell `[n-1-c][r]` of the input. -/
def rotateFaceL (face : Grid) : Grid :=
  let n := face.length
  (List.range n).map fun r => (List.range n).map fun c => getE face (n - 1 - c) r

/-- The six faces as grids. -/
structure FacesL where
  front : Grid
  back : Grid
  left : Grid
  right : Grid
  top : Grid
  bottom : Grid
  deriving Repr

/-- `moveU` on grids, one TypeScript statement per step. -/
def moveUL (s0 : FacesL) : FacesL :=
  let s1 := { s0 with top := rotateFaceL s0.top }
  let temp := getRow s1.front 0
  let s2 := { s1 with front := setRow s1.front 0 (getRow s1.right 0) }
  let s3 := { s2 with right := setRow s2.right 0 (getRow s2.back 0) }
  let s4 := { s3 with back := setRow s3.back 0 (getRow s3.left 0) }
  { s4 with left := setRow s4.left 0 temp }

/-- `moveD` on grids. -/
def moveDL (s0 : FacesL) : FacesL :=
  let s1 := { s0 with bottom := rotateFaceL s0.bottom }
  let temp := getRow s1.front 2
  let s2 := { s1 with front := setRow s1.front 2 (getRow s1.left 2) }
  let s3 := { s2 with left := setRow s2.left 2 (getRow s2.back 2) }
  let s4 := { s3 with back := setRow s3.back 2 (getRow s3.right 2) }
  { s4 with right := setRow s4.right 2 temp }

/-- `moveR` on grids. -/
def moveRL (s0 : FacesL) : FacesL :=
  let s1 := { s0 with right := rotateFaceL s0.right }
  let temp := [getE s1.front 0 2, getE s1.front 1 2, getE s1.front 2 2]
  let s2 := { s1 with front := setE s1.front 0 2 (getE s1.bottom 0 2) }
  let s3 := { s2 with front := setE s2.front 1 2 (getE s2.bottom 1 2) }
  let s4 := { s3 with front := setE s3.front 2 2 (getE s3.bottom 2 2) }
  let s5 := { s4 with bottom := setE s4.bottom 0 2 (getE s4.back 2 0) }
  let s6 := { s5 with bottom := setE s5.bottom 1 2 (getE s5.back 1 0) }
  let s7 := { s6 with bottom := setE s6.bottom 2 2 (getE s6.back 0 0) }
  let s8 := { s7 with back := setE s7.back 0 0 (getE s7.top 2 2) }
  let s9 := { s8 with back := setE s8.back 1 0 (getE s8.top 1 2) }
  let s10 := { s9 with back := setE s9.back 2 0 (getE s9.top 0 2) }
  let s11 := { s10 with top := setE s10.top 0 2 (temp.getD 0 "") }
  let s12 := { s11 with top := setE s11.top 1 2 (temp.getD 1 "") }
  { s12 with top := setE s12.top 2 2 (temp.getD 2 "") }

/-- `moveL` on grids. -/
def moveLL (s0 : FacesL) : FacesL :=
  let s1 := { s0 with left := rotateFaceL s0.left }
  let temp := [getE s1.front 0 0, getE s1.front 1 0, getE s1.front 2 0]
  let s2 := { s1 with front := setE s1.front 0 0 (getE s1.top 0 0) }
  let s3 := { s2 with front := setE s2.front 1 0 (getE s2.top 1 0) }
  let s4 := { s3 with front := setE s3.front 2 0 (getE s3.top 2 0) }
  let s5 := { s4 with top := setE s4.top 0 0 (getE s4.back 2 2) }
  let s6 := { s5 with top := setE s5.top 1 0 (getE s5.back 1 2) }
  let s7 := { s6 with top := setE s6.top 2 0 (getE s6.back 0 2) }
  let s8 := { s7 with back := setE s7.back 0 2 (getE s7.bottom 2 0) }
  let s9 := { s8 with back := setE s8.back 1 2 (getE s8.bottom 1 0) }
  let s10 := { s9 with back := setE s9.back 2 2 (getE s9.bottom 0 0) }
  let s11 := { s10 with bottom := setE s10.bottom 0 0 (temp.getD 0 "") }
  let s12 := { s11 with bottom := setE s11.bottom 1 0 (temp.getD 1 "") }
  { s12 with bottom := setE s12.bottom 2 0 (temp.getD 2 "") }

/-- `moveF` on grids. -/
def moveFL (s0 : FacesL) : FacesL :=
  let s1 := { s0 with front := rotateFaceL s0.front }
  let temp := getRow s1.top 2
  let row2 := setRow s1.top 2 [getE s1.left 2 2, getE s1.left 1 2, getE s1.left 0 2]
  let s2 := { s1 with top := row2 }
  let s3 := { s2 with left := setE s2.left 0 2 (getE s2.bottom 0 0) }
  let s4 := { s3 with left := setE s3.left 1 2 (getE s3.bottom 0 1) }
  let s5 := { s4 with left := setE s4.left 2 2 (getE s4.bottom 0 2) }
  let row0 := setRow s5.bottom 0 [getE s5.right 2 0, getE s5.right 1 0, getE s5.right 0 0]
  let s6 := { s5 with bottom := row0 }
  let s7 := { s6 with right := setE s6.right 0 0 (temp.getD 0 "") }
  let s8 := { s7 with right := setE s7.right 1 0 (temp.getD 1 "") }
  { s8 with right := setE s8.right 2 0 (temp.getD 2 "") }

/-- `moveB` on grids. -/
def moveBL (s0 : FacesL) : FacesL :=
  let s1 := { s0 with back := rotateFaceL s0.back }
  let temp := getRow s1.top 0
  let row0 := setRow s1.top 0 [getE s1.right 0 2, getE s1.right 1 2, getE s1.right 2 2]
  let s2 := { s1 with top := row0 }
  let s3 := { s2 with right := setE s2.right 0 2 (getE s2.bottom 2 2) }
  let s4 := { s3 with right := setE s3.right 1 2 (getE s3.bottom 2 1) }
  let s5 := { s4 with right := setE s4.right 2 2 (getE s4.bottom 2 0) }
  let brow := setRow s5.bottom 2 [getE s5.left 2 0, getE s5.left 1 0, getE s5.left 0 0]
  let s6 := { s5 with bottom := brow }
  let s7 := { s6 with left := setE s6.left 0 0 (temp.getD 2 "") }
  let s8 := { s7 with left := setE s7.left 1 0 (temp.getD 1 "") }
  { s8 with left := setE s8.left 2 0 (temp.getD 0 "") }

/-- The 18-case dispatch on grids. -/
def getMoveFunctionL (move : String) : Option (FacesL → FacesL) :=
  if move = "U" then some moveUL
  else if move = "U'" then some (fun s => moveUL (moveUL (moveUL s)))
  else if move = "U2" then some (fun s => moveUL (moveUL s))
  else if move = "D" then some moveDL
  else if move = "D'" then some (fun s => moveDL (moveDL (moveDL s)))
  else if move = "D2" then some (fun s => moveDL (moveDL s))
  else if move = "R" then some moveRL
  else if move = "R'" then some (fun s => moveRL (moveRL (moveRL s)))
  else if move = "R2" then some (fun s => moveRL (moveRL s))
  else if move = "L" then some moveLL
  else if move = "L'" then some (fun s => moveLL (moveLL (moveLL s)))
  else if move = "L2" then some (fun s => moveLL (moveLL s))
  else if move = "F" then some moveFL
  else if move = "F'" then some (fun s => moveFL (moveFL (moveFL s)))
  else if move = "F2" then some (fun s => moveFL (moveFL s))
  else if move = "B" then some moveBL
  else if move = "B'" then some (fun s => moveBL (moveBL (moveBL s)))
  else if move = "B2" then some (fun s => moveBL (moveBL s))
  else none

/-- A grid is a 3x3 array. -/
def shapeFace (g : Grid) : Bool :=
  g.length == 3 && g.all fun r => r.length == 3

/-- All six faces are 3x3 arrays. -/
def shapeAll (s : FacesL) : Bool :=
  shapeFace s.front && shapeFace s.back && shapeFace s.left &&
  shapeFace s.right && shapeFace s.top && shapeFace s.bottom

/-- A structure-model face as the grid it stands for. -/
def toGrid (x : Face) : Grid :=
  [[x.m00, x.m01, x.m02], [x.m10, x.m11, x.m12], [x.m20, x.m21, x.m22]]

/-- A structure-model state as grids. -/
def toGridF (s : Faces) : FacesL :=
  { front := toGrid s.front, back := toGrid s.back, left := toGrid s.left,
    right := toGrid s.right, top := toGrid s.top, bottom := toGrid s.bottom }

/-! Theorems. -/

set_option maxHeartbeats 1000000 in
/-- `moveU` permutes the 54 stickers: every color count is unchanged. -/
theorem countColor_moveU (c : String) (s : Faces) :
    countColor c (moveU s) = countColor c s := by
  rcases s with ⟨⟨_,_,_,_,_,_,_,_,_⟩,⟨_,_,_,_,_,_,_,_,_⟩,⟨_,_,_,_,_,_,_,_,_⟩,
    ⟨_,_,_,_,_,_,_,_,_⟩,⟨_,_,_,_,_,_,_,_,_⟩,⟨_,_,_,_,_,_,_,_,_⟩⟩
  simp only [countColor, stickers, faceStickers, moveU, rotateFace,
    List.count_cons, List.count_append, List.count_nil]
  ring

set_option maxHeartbeats 1000000 in
/-- `moveD` permutes the 54 stickers. -/
theorem countColor_moveD (c : String) (s : Faces) :
    countColor c (moveD s) = countColor c s := by
  rcases s with ⟨⟨_,_,_,_,_,_,_,_,_⟩,⟨_,_,_,_,_,_,_,_,_⟩,⟨_,_,_,_,_,_,_,_,_⟩,
    ⟨_,_,_,_,_,_,_,_,_⟩,⟨_,_,_,_,_,_,_,_,_⟩,⟨_,_,_,_,_,_,_,_,_⟩⟩
  simp only [countColor, stickers, faceStickers, moveD, rotateFace,
    List.count_cons, List.count_append, List.count_nil]
  ring

set_option maxHeartbeats 1000000 in
/-- `moveR` permutes the 54 stickers. -/
theorem countColor_moveR (c : String) (s : Faces) :
    countColor c (moveR s) = countColor c s := by
  rcases s with ⟨⟨_,_,_,_,_,_,_,_,_⟩,⟨_,_,_,_,_,_,_,_,_⟩,⟨_,_,_,_,_,_,_,_,_⟩,
    ⟨_,_,_,_,_,_,_,_,_⟩,⟨_,_,_,_,_,_,_,_,_⟩,⟨_,_,_,_,_,_,_,_,_⟩⟩
  simp only [countColor, stickers, faceStickers, moveR, rotateFace,
    List.count_cons, List.count_append, List.count_nil]
  ring

set_option maxHeartbeats 1000000 in
/-- `moveL` permutes the 54 stickers. -/
theorem countColor_moveL (c : String) (s : Faces) :
    countColor c (moveL s) = countColor c s := by
  rcases s with ⟨⟨_,_,_,_,_,_,_,_,_⟩,⟨_,_,_,_,_,_,_,_,_⟩,⟨_,_,_,_,_,_,_,_,_⟩,
    ⟨_,_,_,_,_,_,_,_,_⟩,⟨_,_,_,_,_,_,_,_,_⟩,⟨_,_,_,_,_,_,_,_,_⟩⟩
  simp only [countColor, stickers, faceStickers, moveL, rotateFace,
    List.count_cons, List.count_append, List.count_nil]
  ring

set_option maxHeartbeats 1000000 in
/-- `moveF` permutes the 54 stickers. -/
theorem countColor_moveF (c : String) (s : Faces) :
    countColor c (moveF s) = countColor c s := by
  rcases s with ⟨⟨_,_,_,_,_,_,_,_,_⟩,⟨_,_,_,_,_,_,_,_,_⟩,⟨_,_,_,_,_,_,_,_,_⟩,
    ⟨_,_,_,_,_,_,_,_,_⟩,⟨_,_,_,_,_,_,_,_,_⟩,⟨_,_,_,_,_,_,_,_,_⟩⟩
  simp only [countColor, stickers, faceStickers, moveF, rotateFace,
    List.count_cons, List.count_append, List.count_nil]
  ring

set_option maxHeartbeats 1000000 in
/-- `moveB` permutes the 54 stickers (its orientation slip notwithstanding,
it is still a permutation). -/
theorem countColor_moveB (c : String) (s : Faces) :
    countColor c (moveB s) = countColor c s := by
  rcases s with ⟨⟨_,_,_,_,_,_,_,_,_⟩,⟨_,_,_,_,_,_,_,_,_⟩,⟨_,_,_,_,_,_,_,_,_⟩,
    ⟨_,_,_,_,_,_,_,_,_⟩,⟨_,_,_,_,_,_,_,_,_⟩,⟨_,_,_,_,_,_,_,_,_⟩⟩
  simp only [countColor, stickers, faceStickers, moveB, rotateFace,
    List.count_cons, List.count_append, List.count_nil]
  ring

/-- Successful `executeMove` characterized: the dispatch found a move
function, the faces are its image, `solved` is recomputed, the token is
appended. -/
theorem executeMove_some {s s' : CubeState} {m : String}
    (h : executeMove s m = some s') :
    ∃ f, getMoveFunction m = some f ∧
      s' = { faces := f s.faces, solved := checkSolved (f s.faces),
             moveHistory := s.moveHistory ++ [m] } := by
  unfold executeMove at h
  rcases hf : getMoveFunction m with _ | f
  · rw [hf] at h; exact absurd h (by simp)
  · rw [hf] at h
    simp only [Option.map_some', Option.some.injEq] at h
    exact ⟨f, rfl, h.symm⟩

/-- Outside the 18-symbol alphabet the dispatch reaches the default
branch. -/
theorem getMoveFunction_eq_none {m : String} (h : m ∉ validMoves) :
    getMoveFunction m = none := by
  simp only [validMoves, List.mem_cons, List.not_mem_nil, or_false, not_or] at h
  obtain ⟨h1, h2, h3, h4, h5, h6, h7, h8, h9, h10, h11, h12,
    h13, h14, h15, h16, h17, h18⟩ := h
  unfold getMoveFunction
  rw [if_neg h1, if_neg h7, if_neg h13, if_neg h2, if_neg h8, if_neg h14,
    if_neg h4, if_neg h10, if_neg h16, if_neg h3, if_neg h9, if_neg h15,
    if_neg h5, if_neg h11, if_neg h17, if_neg h6, if_neg h12, if_neg h18]

/-- A token the dispatch resolves is in the alphabet. -/
theorem getMoveFunction_mem {m : String} {f : Faces → Faces}
    (hf : getMoveFunction m = some f) : m ∈ validMoves := by
  by_contra h
  rw [getMoveFunction_eq_none h] at hf
  exact Option.noConfusion hf

/-- Every move function the dispatch can return preserves every color
count. -/
theorem getMoveFunction_count {m : String} {f : Faces → Faces}
    (hf : getMoveFunction m = some f) (c : String) (s : Faces) :
    countColor c (f s) = countColor c s := by
  have hm : m ∈ validMoves := getMoveFunction_mem hf
  fin_cases hm
  · cases hf.symm.trans (show getMoveFunction "U" = some moveU from rfl)
    simp only [countColor_moveU]
  · cases hf.symm.trans (show getMoveFunction "D" = some moveD from rfl)
    simp only [countColor_moveD]
  · cases hf.symm.trans (show getMoveFunction "L" = some moveL from rfl)
    simp only [countColor_moveL]
  · cases hf.symm.trans (show getMoveFunction "R" = some moveR from rfl)
    simp only [countColor_moveR]
  · cases hf.symm.trans (show getMoveFunction "F" = some moveF from rfl)
    simp only [countColor_moveF]
  · cases hf.symm.trans (show getMoveFunction "B" = some moveB from rfl)
    simp only [countColor_moveB]
  · cases hf.symm.trans
      (show getMoveFunction "U'" = some (fun s => moveU (moveU (moveU s))) from rfl)
    simp only [countColor_moveU]
  · cases hf.symm.trans
      (show getMoveFunction "D'" = some (fun s => moveD (moveD (moveD s))) from rfl)
    simp only [countColor_moveD]
  · cases hf.symm.trans
      (show getMoveFunction "L'" = some (fun s => moveL (moveL (moveL s))) from rfl)
    simp only [countColor_moveL]
  · cases hf.symm.trans
      (show getMoveFunction "R'" = some (fun s => moveR (moveR (moveR s))) from rfl)
    simp only [countColor_moveR]
  · cases hf.symm.trans
      (show getMoveFunction "F'" = some (fun s => moveF (moveF (moveF s))) from rfl)
    simp only [countColor_moveF]
  · cases hf.symm.trans
      (show getMoveFunction "B'" = some (fun s => moveB (moveB (moveB s))) from rfl)
    simp only [countColor_moveB]
  · cases hf.symm.trans
      (show getMoveFunction "U2" = some (fun s => moveU (moveU s)) from rfl)
    simp only [countColor_moveU]
  · cases hf.symm.trans
      (show getMoveFunction "D2" = some (fun s => moveD (moveD s)) from rfl)
    simp only [countColor_moveD]
  · cases hf.symm.trans
      (show getMoveFunction "L2" = some (fun s => moveL (moveL s)) from rfl)
    simp only [countColor_moveL]
  · cases hf.symm.trans
      (show getMoveFunction "R2" = some (fun s => moveR (moveR s)) from rfl)
    simp only [countColor_moveR]
  · cases hf.symm.trans
      (show getMoveFunction "F2" = some (fun s => moveF (moveF s)) from rfl)
    simp only [countColor_moveF]
  · cases hf.symm.trans
      (show getMoveFunction "B2" = some (fun s => moveB (moveB s)) from rfl)
    simp only [countColor_moveB]

/-- C1.  The claim `move^4 = identity on faces` for every base token fails
on the code: `moveB` copies the left column to the bottom row reversed
where the fixed net layout requires no reversal, so its border-strip cycle
composes an odd number of reversals and `moveB` has order 8, not 4.  On the
probe state with 54 distinct stickers, four `B` turns land the sticker at
`top[0][2]` on `top[0][0]` instead of restoring it.  The other five base
moves do satisfy `move^4 = identity`. -/
theorem C1_moveB_breaks_move4_identity :
    moveB (moveB (moveB (moveB probeFaces))) ≠ probeFaces ∧
    (moveB (moveB (moveB (moveB probeFaces)))).top.m00 = probeFaces.top.m02 ∧
    probeFaces.top.m00 ≠ probeFaces.top.m02 ∧
    (∀ s : Faces, moveU (moveU (moveU (moveU s))) = s) ∧
    (∀ s : Faces, moveD (moveD (moveD (moveD s))) = s) ∧
    (∀ s : Faces, moveL (moveL (moveL (moveL s))) = s) ∧
    (∀ s : Faces, moveR (moveR (moveR (moveR s))) = s) ∧
    (∀ s : Faces, moveF (moveF (moveF (moveF s))) = s) :=
  ⟨by decide, by decide, by decide,
   fun _ => rfl, fun _ => rfl, fun _ => rfl, fun _ => rfl, fun _ => rfl⟩

/-- C3.  `executeMove "D"` applies `moveD`; `moveD` rotates the bottom
face clockwise and cycles the bottom-row strips front←left←back←right←front,
the reverse rotational sense of `moveU`'s top-row cycle
front←right←back←left←front (whose arrow convention the spec anchors by
"U carries front's top row to left"); everything else is untouched. -/
theorem C3_moveD_bottom_cycle (cs : CubeState) (s : Faces) :
    (executeMove cs "D").map CubeState.faces = some (moveD cs.faces) ∧
    (moveD s).bottom = rotateFace s.bottom ∧
    bottomRow (moveD s).front = bottomRow s.left ∧
    bottomRow (moveD s).left = bottomRow s.back ∧
    bottomRow (moveD s).back = bottomRow s.right ∧
    bottomRow (moveD s).right = bottomRow s.front ∧
    topRow (moveU s).left = topRow s.front ∧
    topRow (moveU s).front = topRow s.right ∧
    topRow (moveU s).right = topRow s.back ∧
    topRow (moveU s).back = topRow s.left ∧
    (moveD s).top = s.top ∧
    topRow (moveD s).front = topRow s.front ∧
    midRow (moveD s).front = midRow s.front ∧
    topRow (moveD s).left = topRow s.left ∧
    midRow (moveD s).left = midRow s.left ∧
    topRow (moveD s).back = topRow s.back ∧
    midRow (moveD s).back = midRow s.back ∧
    topRow (moveD s).right = topRow s.right ∧
    midRow (moveD s).right = midRow s.right :=
  ⟨rfl, rfl, rfl, rfl, rfl, rfl, rfl, rfl, rfl, rfl, rfl, rfl, rfl, rfl,
   rfl, rfl, rfl, rfl, rfl⟩

/-- C7.  The engine constructor's state is solved for `isSolved`, and each
of the 18 tokens applied once to it yields a state `isSolved` rejects. -/
theorem C7_single_move_unsolves :
    isSolved createSolvedCube.faces = true ∧
    createSolvedCube.solved = true ∧
    ∀ m ∈ validMoves,
      (executeMove createSolvedCube m).map (fun t => isSolved t.faces) =
        some false := by
  refine ⟨by decide, rfl, by decide⟩

/-- C7 witness: the single move `"U"` on the fresh solved cube yields an
unsolved state. -/
theorem C7_single_move_unsolves_witness :
    (executeMove createSolvedCube "U").map (fun t => isSolved t.faces) =
      some false :=
  C7_single_move_unsolves.2.2 "U" (by decide)

/-- C9.  `isSolved` holds exactly when each of the six faces is uniformly
equal to its own first sticker — no cross-face condition: the all-green
cube, uniform per face but with no distinct colors at all, passes. -/
theorem C9_isSolved_per_face_uniformity :
    (∀ s : Faces,
      (isSolved s = true ↔
        (faceUniform s.front ∧ faceUniform s.back ∧ faceUniform s.left ∧
         faceUniform s.right ∧ faceUniform s.top ∧ faceUniform s.bottom))) ∧
    isSolved allGreen = true := by
  constructor
  · intro s
    simp only [isSolved, isSolvedFace, faceUniform, Bool.and_eq_true,
      beq_iff_eq, beq_self_eq_true, true_and]
    tauto
  · decide

/-- C2.  Every state reachable from the solved cube by successful
`executeMove` calls carries exactly 9 stickers of each of the 6 colors. -/
theorem C2_reachable_sticker_counts (s : CubeState) (h : Reachable s) :
    countColor "W" s.faces = 9 ∧ countColor "Y" s.faces = 9 ∧
    countColor "R" s.faces = 9 ∧ countColor "O" s.faces = 9 ∧
    countColor "B" s.faces = 9 ∧ countColor "G" s.faces = 9 := by
  induction h with
  | base => decide
  | step hr hm ih =>
    obtain ⟨f, hf, rfl⟩ := executeMove_some hm
    simpa only [getMoveFunction_count hf] using ih

/-- C2 witness: the solved start state is reachable and has the 9-of-each
counts. -/
theorem C2_reachable_sticker_counts_witness :
    Reachable createSolvedCube ∧
    countColor "W" createSolvedCube.faces = 9 ∧
    countColor "Y" createSolvedCube.faces = 9 ∧
    countColor "R" createSolvedCube.faces = 9 ∧
    countColor "O" createSolvedCube.faces = 9 ∧
    countColor "B" createSolvedCube.faces = 9 ∧
    countColor "G" createSolvedCube.faces = 9 :=
  ⟨Reachable.base, C2_reachable_sticker_counts createSolvedCube Reachable.base⟩

/-- C4.  A move request against a `completed` session is not executed and
raises nothing: the registry is returned unchanged (so the session's
faces, `solved` flag, `moveHistory` and status are all exactly as before)
and the response carries the session's current cube state. -/
theorem C4_completed_session_frozen (games : Registry) (gameId move : String)
    (now : Nat) (g : Game) (hlook : findGame games gameId = some g)
    (hstatus : g.session.status = SessionStatus.completed) :
    manipulateCube games gameId move now =
      some (games,
        { gameId := gameId, cube := g.cube, nextAction := some "finish" }) := by
  unfold manipulateCube
  rw [hlook]
  simp [hstatus, getState]

/-- C4 witness: a concrete completed (unsolved) session, asked to apply
`"U"`: the registry comes back identical and the cube untouched. -/
theorem C4_completed_session_frozen_witness :
    manipulateCube demoRegistry "g1" "U" 5 =
      some (demoRegistry,
        { gameId := "g1", cube := demoCompletedGame.cube,
          nextAction := some "finish" }) :=
  C4_completed_session_frozen demoRegistry "g1" "U" 5 demoCompletedGame rfl rfl

/-- C5 counterexample.  `setState` does not recompute `solved`: replacing
the state with a snapshot whose faces are the solved cube's after one `U`
turn but whose flag says `true` leaves the engine with `solved = true`
while the per-face-uniformity predicate is false — the flag is exactly the
cached value carried across the full-state replacement. -/
theorem C5_setState_keeps_stale_flag :
    (setState createSolvedCube staleSnapshot).solved = true ∧
    isSolved (setState createSolvedCube staleSnapshot).faces = false := by
  decide

/-- C5 amended: after every successful `executeMove` the `solved` flag
equals the per-face-uniformity predicate on the new faces; `setState`, by
contrast, replaces the state wholesale, taking the snapshot's flag as is
(no recomputation, no validation). -/
theorem C5_solved_recomputed_after_moves :
    (∀ (s s' : CubeState) (m : String), executeMove s m = some s' →
        s'.solved = isSolved s'.faces) ∧
    (∀ s t : CubeState, setState s t = t) := by
  constructor
  · intro s s' m h
    obtain ⟨f, hf, rfl⟩ := executeMove_some h
    rfl
  · intro s t
    rfl

/-- C5 witness: after `"U"` on the solved cube the recomputed flag agrees
with the predicate. -/
theorem C5_solved_recomputed_after_moves_witness :
    afterU.solved = isSolved afterU.faces :=
  C5_solved_recomputed_after_moves.1 createSolvedCube afterU "U" rfl

/-- C6.  `executeMove` rejects exactly the tokens outside the 18-symbol
alphabet: outside, the dispatch throws before any move function, history
push or `solved` recomputation runs, so no component of the state is
touched (`none` carries no new state); inside, the call succeeds. -/
theorem C6_invalid_move_rejected (s : CubeState) (m : String) :
    (m ∉ validMoves → executeMove s m = none) ∧
    (m ∈ validMoves → ∃ s', executeMove s m = some s') := by
  constructor
  · intro h
    unfold executeMove
    rw [getMoveFunction_eq_none h]
    rfl
  · intro h
    fin_cases h <;> exact ⟨_, rfl⟩

/-- C6 witness: the token `"X"` is rejected, the token `"U2"` accepted. -/
theorem C6_invalid_move_rejected_witness :
    executeMove createSolvedCube "X" = none ∧
    ∃ s', executeMove createSolvedCube "U2" = some s' :=
  ⟨(C6_invalid_move_rejected createSolvedCube "X").1 (by decide),
   (C6_invalid_move_rejected createSolvedCube "U2").2 (by decide)⟩

/-- C8.  `finish` fails with session-not-found exactly when the id is
absent; on a present session it forces `status = completed` and
`lastActivity = now` while leaving `id`, `createdAt`, the engine cube and
the stored `cubeState` (faces, flag, history) untouched. -/
theorem C8_finish_forces_completed (games : Registry) (gameId : String)
    (now : Nat) :
    (findGame games gameId = none → finish games gameId now = none) ∧
    (∀ g : Game, findGame games gameId = some g →
      finish games gameId now =
        some (storeGame games gameId
          { cube := g.cube
            session :=
              { id := g.session.id, cubeState := g.session.cubeState,
                createdAt := g.session.createdAt, lastActivity := now,
                status := SessionStatus.completed } },
          { gameId := gameId, cube := g.cube, nextAction := none })) := by
  constructor
  · intro h
    unfold finish
    rw [h]
  · intro g h
    unfold finish
    rw [h]
    rfl

/-- C8 witness: finishing the concrete active, unsolved session `"g2"`. -/
theorem C8_finish_forces_completed_witness :
    finish demoRegistry "g2" 9 =
      some (storeGame demoRegistry "g2"
        { cube := demoActiveGame.cube
          session :=
            { id := demoActiveGame.session.id
              cubeState := demoActiveGame.session.cubeState
              createdAt := demoActiveGame.session.createdAt
              lastActivity := 9
              status := SessionStatus.completed } },
        { gameId := "g2", cube := demoActiveGame.cube, nextAction := none }) :=
  (C8_finish_forces_completed demoRegistry "g2" 9).2 demoActiveGame rfl


/-- A grid certified 3x3 is literally a 3x3 list of lists. -/
theorem shapeFace_elim (g : Grid) (h : shapeFace g = true) :
    ∃ x00 x01 x02 x10 x11 x12 x20 x21 x22 : String,
      g = [[x00, x01, x02], [x10, x11, x12], [x20, x21, x22]] := by
  simp only [shapeFace, Bool.and_eq_true, beq_iff_eq, List.all_eq_true] at h
  obtain ⟨hlen, hrows⟩ := h
  obtain ⟨r0, r1, r2, rfl⟩ := List.length_eq_three.mp hlen
  obtain ⟨a, b, c, rfl⟩ := List.length_eq_three.mp (hrows r0 (by simp))
  obtain ⟨d, e, f, rfl⟩ := List.length_eq_three.mp (hrows r1 (by simp))
  obtain ⟨p, q, r, rfl⟩ := List.length_eq_three.mp (hrows r2 (by simp))
  exact ⟨a, b, c, d, e, f, p, q, r, rfl⟩

/-- `moveU` on grids keeps all six faces 3x3. -/
theorem shapeAll_moveUL (s : FacesL) (h : shapeAll s = true) :
    shapeAll (moveUL s) = true := by
  obtain ⟨fr, bk, lf, rt, tp, bt⟩ := s
  simp only [shapeAll, Bool.and_eq_true] at h
  obtain ⟨⟨⟨⟨⟨hf, hb⟩, hl⟩, hr⟩, ht⟩, hbo⟩ := h
  obtain ⟨_, _, _, _, _, _, _, _, _, rfl⟩ := shapeFace_elim _ hf
  obtain ⟨_, _, _, _, _, _, _, _, _, rfl⟩ := shapeFace_elim _ hb
  obtain ⟨_, _, _, _, _, _, _, _, _, rfl⟩ := shapeFace_elim _ hl
  obtain ⟨_, _, _, _, _, _, _, _, _, rfl⟩ := shapeFace_elim _ hr
  obtain ⟨_, _, _, _, _, _, _, _, _, rfl⟩ := shapeFace_elim _ ht
  obtain ⟨_, _, _, _, _, _, _, _, _, rfl⟩ := shapeFace_elim _ hbo
  rfl

/-- `moveD` on grids keeps all six faces 3x3. -/
theorem shapeAll_moveDL (s : FacesL) (h : shapeAll s = true) :
    shapeAll (moveDL s) = true := by
  obtain ⟨fr, bk, lf, rt, tp, bt⟩ := s
  simp only [shapeAll, Bool.and_eq_true] at h
  obtain ⟨⟨⟨⟨⟨hf, hb⟩, hl⟩, hr⟩, ht⟩, hbo⟩ := h
  obtain ⟨_, _, _, _, _, _, _, _, _, rfl⟩ := shapeFace_elim _ hf
  obtain ⟨_, _, _, _, _, _, _, _, _, rfl⟩ := shapeFace_elim _ hb
  obtain ⟨_, _, _, _, _, _, _, _, _, rfl⟩ := shapeFace_elim _ hl
  obtain ⟨_, _, _, _, _, _, _, _, _, rfl⟩ := shapeFace_elim _ hr
  obtain ⟨_, _, _, _, _, _, _, _, _, rfl⟩ := shapeFace_elim _ ht
  obtain ⟨_, _, _, _, _, _, _, _, _, rfl⟩ := shapeFace_elim _ hbo
  rfl

/-- `moveR` on grids keeps all six faces 3x3. -/
theorem shapeAll_moveRL (s : FacesL) (h : shapeAll s = true) :
    shapeAll (moveRL s) = true := by
  obtain ⟨fr, bk, lf, rt, tp, bt⟩ := s
  simp only [shapeAll, Bool.and_eq_true] at h
  obtain ⟨⟨⟨⟨⟨hf, hb⟩, hl⟩, hr⟩, ht⟩, hbo⟩ := h
  obtain ⟨_, _, _, _, _, _, _, _, _, rfl⟩ := shapeFace_elim _ hf
  obtain ⟨_, _, _, _, _, _, _, _, _, rfl⟩ := shapeFace_elim _ hb
  obtain ⟨_, _, _, _, _, _, _, _, _, rfl⟩ := shapeFace_elim _ hl
  obtain ⟨_, _, _, _, _, _, _, _, _, rfl⟩ := shapeFace_elim _ hr
  obtain ⟨_, _, _, _, _, _, _, _, _, rfl⟩ := shapeFace_elim _ ht
  obtain ⟨_, _, _, _, _, _, _, _, _, rfl⟩ := shapeFace_elim _ hbo
  rfl

/-- `moveL` on grids keeps all six faces 3x3. -/
theorem shapeAll_moveLL (s : FacesL) (h : shapeAll s = true) :
    shapeAll (moveLL s) = true := by
  obtain ⟨fr, bk, lf, rt, tp, bt⟩ := s
  simp only [shapeAll, Bool.and_eq_true] at h
  obtain ⟨⟨⟨⟨⟨hf, hb⟩, hl⟩, hr⟩, ht⟩, hbo⟩ := h
  obtain ⟨_, _, _, _, _, _, _, _, _, rfl⟩ := shapeFace_elim _ hf
  obtain ⟨_, _, _, _, _, _, _, _, _, rfl⟩ := shapeFace_elim _ hb
  obtain ⟨_, _, _, _, _, _, _, _, _, rfl⟩ := shapeFace_elim _ hl
  obtain ⟨_, _, _, _, _, _, _, _, _, rfl⟩ := shapeFace_elim _ hr
  obtain ⟨_, _, _, _, _, _, _, _, _, rfl⟩ := shapeFace_elim _ ht
  obtain ⟨_, _, _, _, _, _, _, _, _, rfl⟩ := shapeFace_elim _ hbo
  rfl

/-- `moveF` on grids keeps all six faces 3x3. -/
theorem shapeAll_moveFL (s : FacesL) (h : shapeAll s = true) :
    shapeAll (moveFL s) = true := by
  obtain ⟨fr, bk, lf, rt, tp, bt⟩ := s
  simp only [shapeAll, Bool.and_eq_true] at h
  obtain ⟨⟨⟨⟨⟨hf, hb⟩, hl⟩, hr⟩, ht⟩, hbo⟩ := h
  obtain ⟨_, _, _, _, _, _, _, _, _, rfl⟩ := shapeFace_elim _ hf
  obtain ⟨_, _, _, _, _, _, _, _, _, rfl⟩ := shapeFace_elim _ hb
  obtain ⟨_, _, _, _, _, _, _, _, _, rfl⟩ := shapeFace_elim _ hl
  obtain ⟨_, _, _, _, _, _, _, _, _, rfl⟩ := shapeFace_elim _ hr
  obtain ⟨_, _, _, _, _, _, _, _, _, rfl⟩ := shapeFace_elim _ ht
  obtain ⟨_, _, _, _, _, _, _, _, _, rfl⟩ := shapeFace_elim _ hbo
  rfl

/-- `moveB` on grids keeps all six faces 3x3. -/
theorem shapeAll_moveBL (s : FacesL) (h : shapeAll s = true) :
    shapeAll (moveBL s) = true := by
  obtain ⟨fr, bk, lf, rt, tp, bt⟩ := s
  simp only [shapeAll, Bool.and_eq_true] at h
  obtain ⟨⟨⟨⟨⟨hf, hb⟩, hl⟩, hr⟩, ht⟩, hbo⟩ := h
  obtain ⟨_, _, _, _, _, _, _, _, _, rfl⟩ := shapeFace_elim _ hf
  obtain ⟨_, _, _, _, _, _, _, _, _, rfl⟩ := shapeFace_elim _ hb
  obtain ⟨_, _, _, _, _, _, _, _, _, rfl⟩ := shapeFace_elim _ hl
  obtain ⟨_, _, _, _, _, _, _, _, _, rfl⟩ := shapeFace_elim _ hr
  obtain ⟨_, _, _, _, _, _, _, _, _, rfl⟩ := shapeFace_elim _ ht
  obtain ⟨_, _, _, _, _, _, _, _, _, rfl⟩ := shapeFace_elim _ hbo
  rfl

/-- The grid-level `moveU` agrees with the structure-level one. -/
theorem agree_moveUL (s : Faces) : moveUL (toGridF s) = toGridF (moveU s) := rfl

/-- The grid-level `moveD` agrees with the structure-level one. -/
theorem agree_moveDL (s : Faces) : moveDL (toGridF s) = toGridF (moveD s) := rfl

/-- The grid-level `moveR` agrees with the structure-level one. -/
theorem agree_moveRL (s : Faces) : moveRL (toGridF s) = toGridF (moveR s) := rfl

/-- The grid-level `moveL` agrees with the structure-level one. -/
theorem agree_moveLL (s : Faces) : moveLL (toGridF s) = toGridF (moveL s) := rfl

/-- The grid-level `moveF` agrees with the structure-level one. -/
theorem agree_moveFL (s : Faces) : moveFL (toGridF s) = toGridF (moveF s) := rfl

/-- The grid-level `moveB` agrees with the structure-level one. -/
theorem agree_moveBL (s : Faces) : moveBL (toGridF s) = toGridF (moveB s) := rfl

set_option maxHeartbeats 1000000 in
/-- C10.  Each of the 18 valid tokens resolves to a transformation (in
both the grid model and the structure model): on any six 3x3 faces,
reachable or not, the grid transformation accesses only cells that exist
and returns six 3x3 faces again, and it agrees with the always-defined
structure-model transformation on every state. -/
theorem C10_moves_total_and_shape_preserving (m : String)
    (hm : m ∈ validMoves) :
    ∃ (fL : FacesL → FacesL) (fS : Faces → Faces),
      getMoveFunctionL m = some fL ∧ getMoveFunction m = some fS ∧
      (∀ sL : FacesL, shapeAll sL = true → shapeAll (fL sL) = true) ∧
      (∀ s : Faces, fL (toGridF s) = toGridF (fS s)) := by
  simp only [validMoves, List.mem_cons, List.not_mem_nil, or_false] at hm
  rcases hm with rfl | rfl | rfl | rfl | rfl | rfl | rfl | rfl | rfl | rfl |
    rfl | rfl | rfl | rfl | rfl | rfl | rfl | rfl
  · refine ⟨_, _, rfl, rfl, fun sL h => ?_, fun s => ?_⟩
    · solve_by_elim [shapeAll_moveUL]
    · simp only [agree_moveUL]
  · refine ⟨_, _, rfl, rfl, fun sL h => ?_, fun s => ?_⟩
    · solve_by_elim [shapeAll_moveDL]
    · simp only [agree_moveDL]
  · refine ⟨_, _, rfl, rfl, fun sL h => ?_, fun s => ?_⟩
    · solve_by_elim [shapeAll_moveLL]
    · simp only [agree_moveLL]
  · refine ⟨_, _, rfl, rfl, fun sL h => ?_, fun s => ?_⟩
    · solve_by_elim [shapeAll_moveRL]
    · simp only [agree_moveRL]
  · refine ⟨_, _, rfl, rfl, fun sL h => ?_, fun s => ?_⟩
    · solve_by_elim [shapeAll_moveFL]
    · simp only [agree_moveFL]
  · refine ⟨_, _, rfl, rfl, fun sL h => ?_, fun s => ?_⟩
    · solve_by_elim [shapeAll_moveBL]
    · simp only [agree_moveBL]
  · refine ⟨_, _, rfl, rfl, fun sL h => ?_, fun s => ?_⟩
    · solve_by_elim [shapeAll_moveUL]
    · simp only [agree_moveUL]
  · refine ⟨_, _, rfl, rfl, fun sL h => ?_, fun s => ?_⟩
    · solve_by_elim [shapeAll_moveDL]
    · simp only [agree_moveDL]
  · refine ⟨_, _, rfl, rfl, fun sL h => ?_, fun s => ?_⟩
    · solve_by_elim [shapeAll_moveLL]
    · simp only [agree_moveLL]
  · refine ⟨_, _, rfl, rfl, fun sL h => ?_, fun s => ?_⟩
    · solve_by_elim [shapeAll_moveRL]
    · simp only [agree_moveRL]
  · refine ⟨_, _, rfl, rfl, fun sL h => ?_, fun s => ?_⟩
    · solve_by_elim [shapeAll_moveFL]
    · simp only [agree_moveFL]
  · refine ⟨_, _, rfl, rfl, fun sL h => ?_, fun s => ?_⟩
    · solve_by_elim [shapeAll_moveBL]
    · simp only [agree_moveBL]
  · refine ⟨_, _, rfl, rfl, fun sL h => ?_, fun s => ?_⟩
    · solve_by_elim [shapeAll_moveUL]
    · simp only [agree_moveUL]
  · refine ⟨_, _, rfl, rfl, fun sL h => ?_, fun s => ?_⟩
    · solve_by_elim [shapeAll_moveDL]
    · simp only [agree_moveDL]
  · refine ⟨_, _, rfl, rfl, fun sL h => ?_, fun s => ?_⟩
    · solve_by_elim [shapeAll_moveLL]
    · simp only [agree_moveLL]
  · refine ⟨_, _, rfl, rfl, fun sL h => ?_, fun s => ?_⟩
    · solve_by_elim [shapeAll_moveRL]
    · simp only [agree_moveRL]
  · refine ⟨_, _, rfl, rfl, fun sL h => ?_, fun s => ?_⟩
    · solve_by_elim [shapeAll_moveFL]
    · simp only [agree_moveFL]
  · refine ⟨_, _, rfl, rfl, fun sL h => ?_, fun s => ?_⟩
    · solve_by_elim [shapeAll_moveBL]
    · simp only [agree_moveBL]

/-- C10 witness: the token `"B\'"` resolves and preserves the 3x3 shape. -/
theorem C10_moves_total_and_shape_preserving_witness :
    ∃ (fL : FacesL → FacesL) (fS : Faces → Faces),
      getMoveFunctionL "B\'" = some fL ∧ getMoveFunction "B\'" = some fS ∧
      (∀ sL : FacesL, shapeAll sL = true → shapeAll (fL sL) = true) ∧
      (∀ s : Faces, fL (toGridF s) = toGridF (fS s)) :=
  C10_moves_total_and_shape_preserving "B\'" (by decide)

end Cube
